import Mathlib

/-!
Shallow embedding of `src/textsumm/models/transformers/datasets.py`.

Python values are modelled by type parameters; Python `len` on a processed
value is an explicit parameter `len_ : α → Nat`.  Fallible Python code
(assertions, `multiprocessing.Pool` construction errors, attribute and index
errors) is modelled with `Option`/`Except String`.
-/

namespace TextSumm

/-- The transform-chain threading shared by `_preprocess`: apply each function
of the pipeline in order, feeding each output to the next; a `none` pipeline
(Python `preprocess_pipeline is None`) passes the value through unchanged. -/
def applyPipeline (preprocess_pipeline : Option (List (α → α))) (sentences : α) : α :=
  match preprocess_pipeline with
  | none => sentences
  | some fns => fns.foldl (fun s f => f s) sentences

/-- `_preprocess` without a `word_tokenize` function: the pipeline result is
returned alone (the `word_tokenize is None` branch). -/
def _preprocess (preprocess_pipeline : Option (List (α → α))) (sentences : α) : α :=
  applyPipeline preprocess_pipeline sentences

/-- `_preprocess` with a `word_tokenize` function: the pipeline result must be
iterable (a list of sentences), and the return value is the pair
`(sentences, [word_tokenize(s) for s in sentences])`. -/
def _preprocessTok (preprocess_pipeline : Option (List (List σ → List σ)))
    (word_tokenize : σ → List τ) (sentences : List σ) : List σ × List (List τ) :=
  let s := applyPipeline preprocess_pipeline sentences
  (s, s.map word_tokenize)

/-- How `multiprocessing.Pool.map` splits its input: successive chunks of
`k` elements (the last one possibly shorter).  The fuel argument bounds the
number of chunks; `chunkList` below supplies the input length, which is
enough fuel whenever `0 < k`. -/
def chunkListAux (k : Nat) : Nat → List α → List (List α)
  | 0, _ => []
  | _, [] => []
  | fuel + 1, a :: t => (a :: t).take k :: chunkListAux k fuel ((a :: t).drop k)

/-- The chunks `Pool.map` forms from `l` with chunk size `k`. -/
def chunkList (k : Nat) (l : List α) : List (List α) :=
  chunkListAux k l.length l

/-- The effective pool size of `parallel_preprocess`: `-1` resolves to
`cpu_count()`, then the result is clamped by `min` to the input length. -/
def resolved_pool (cpu_count : Nat) (num_pool : Int) (input_len : Nat) : Int :=
  min (if num_pool = -1 then (cpu_count : Int) else num_pool) (input_len : Int)

/-- The `chunksize` argument `parallel_preprocess` passes to `Pool.map`:
`min(1, int(len(input_data) / num_pool))` with the already-resolved pool size. -/
def pool_chunksize (input_len num_pool : Nat) : Nat :=
  min 1 (input_len / num_pool)

/-- `parallel_preprocess(input_data, preprocess_pipeline, word_tokenize, num_pool)`,
generic over the per-item worker function `f` (which the source builds with
`functools` from `_preprocess` and the pipeline/tokenizer arguments).
`Pool(n)` with `n < 1` raises `ValueError` (modelled `none`); `Pool.map` with
`chunksize = 0` also fails (modelled `none`); otherwise the input is split
into chunks, each chunk is mapped, and the results are reassembled in input
order. -/
def parallel_preprocess (cpu_count : Nat) (f : α → β) (input_data : List α)
    (num_pool : Int) : Option (List β) :=
  if resolved_pool cpu_count num_pool input_data.length < 1 then none
  else if pool_chunksize input_data.length
      (resolved_pool cpu_count num_pool input_data.length).toNat = 0 then none
  else some (((chunkList (pool_chunksize input_data.length
      (resolved_pool cpu_count num_pool input_data.length).toNat)
      input_data).map (List.map f)).flatten)

/- ------------------------------------------------------------------ -/
/- The materialized dataset (`SummarizationDataset`).                  -/
/- ------------------------------------------------------------------ -/

/-- The state of a `SummarizationDataset` instance after construction:
`source_txt`/`source` mirror `self._source_txt`/`self._source`; the raw
target field is `None` (here `none`) when no target corpus was supplied, and
`target = none` models the `self._target` attribute never having been
assigned (reading it then raises `AttributeError`). -/
structure SummarizationDataset (ρ π : Type) where
  source_txt : List ρ
  source : List π
  target_txt : Option (List ρ)
  target : Option (List π)
deriving DecidableEq, Repr

/-- The dict `__getitem__` returns: `tgt`/`tgt_txt` are present only when a
target corpus exists. -/
structure Item (ρ π : Type) where
  src : π
  src_txt : ρ
  tgt : Option π
  tgt_txt : Option ρ
deriving DecidableEq, Repr

/-- One line written by `save_to_jsonl`: `{"src": ...}` or
`{"src": ..., "tgt": ...}`. -/
inductive JRecord (π : Type) where
  | srcOnly (src : π)
  | srcTgt (src tgt : π)
deriving DecidableEq, Repr

/-- The lines a corpus contributes to the constructor: file lines (if the
path is given and the file exists) truncated by `itertools.islice` when
`top_n != -1`, followed by the in-memory list when one is given.
`islice` raises `ValueError` on a negative count (modelled `none`). -/
def combined_txt (file_lines mem : Option (List ρ)) (top_n : Int) : Option (List ρ) :=
  match file_lines with
  | none => some ((mem.getD []))
  | some ls =>
    if top_n = -1 then some (ls ++ mem.getD [])
    else if top_n < 0 then none
    else some (ls.take top_n.toNat ++ mem.getD [])

/-- `SummarizationDataset.__init__` without a `word_tokenize` function.
`len_` is Python's `len` on processed values.  Steps, in source order:
combine file and in-memory lines for source and target; replace an empty
combined target with `None`, otherwise assert the two lengths agree; run the
source through `parallel_preprocess` and keep only results with
`len(x) > 0`; if a target exists, do the same with the target pipeline. -/
def mkSummarizationDatasetU (cpu_count : Nat) (len_ : α → Nat)
    (source_file_lines source target_file_lines target : Option (List α))
    (source_preprocessing target_preprocessing : Option (List (α → α)))
    (top_n n_processes : Int) :
    Except String (SummarizationDataset α α) :=
  match combined_txt source_file_lines source top_n,
        combined_txt target_file_lines target top_n with
  | none, _ => .error "ValueError"
  | some _, none => .error "ValueError"
  | some stxt, some ttxt0 =>
    if ttxt0.length ≠ 0 ∧ stxt.length ≠ ttxt0.length then .error "AssertionError"
    else
      match parallel_preprocess cpu_count (_preprocess source_preprocessing)
          stxt n_processes with
      | none => .error "ValueError"
      | some result =>
        let src := result.filter (fun x => 0 < len_ x)
        if ttxt0.length = 0 then
          .ok ⟨stxt, src, none, none⟩
        else
          match parallel_preprocess cpu_count (_preprocess target_preprocessing)
              ttxt0 n_processes with
          | none => .error "ValueError"
          | some tresult =>
            .ok ⟨stxt, src, some ttxt0, some (tresult.filter (fun x => 0 < len_ x))⟩

/-- `SummarizationDataset.__init__` with a `word_tokenize` function.
Each `parallel_preprocess` result element is a pair `x = (sentences, tokens)`;
`self._source_txt` is reassigned to the first components of the results with
`len(x[0]) > 0`, and `self._source` to the second components of the results
with `len(x[1]) > 0` (likewise for the target). -/
def mkSummarizationDatasetT (cpu_count : Nat)
    (source_file_lines source target_file_lines target : Option (List (List σ)))
    (source_preprocessing target_preprocessing : Option (List (List σ → List σ)))
    (word_tokenize : σ → List τ) (top_n n_processes : Int) :
    Except String (SummarizationDataset (List σ) (List (List τ))) :=
  match combined_txt source_file_lines source top_n,
        combined_txt target_file_lines target top_n with
  | none, _ => .error "ValueError"
  | some _, none => .error "ValueError"
  | some stxt, some ttxt0 =>
    if ttxt0.length ≠ 0 ∧ stxt.length ≠ ttxt0.length then .error "AssertionError"
    else
      match parallel_preprocess cpu_count
          (_preprocessTok source_preprocessing word_tokenize) stxt n_processes with
      | none => .error "ValueError"
      | some result =>
        let stxt' := (result.filter (fun x => 0 < x.1.length)).map (fun x => x.1)
        let src := (result.filter (fun x => 0 < x.2.length)).map (fun x => x.2)
        if ttxt0.length = 0 then
          .ok ⟨stxt', src, none, none⟩
        else
          match parallel_preprocess cpu_count
              (_preprocessTok target_preprocessing word_tokenize) ttxt0 n_processes with
          | none => .error "ValueError"
          | some tresult =>
            .ok ⟨stxt', src,
              some ((tresult.filter (fun x => 0 < x.1.length)).map (fun x => x.1)),
              some ((tresult.filter (fun x => 0 < x.2.length)).map (fun x => x.2))⟩

/-- Python list slicing `l[0:n]` for an integer `n`: a non-negative bound
takes the first `n` elements, a negative bound counts from the end. -/
def pySlice0 (l : List α) (n : Int) : List α :=
  if 0 ≤ n then l.take n.toNat else l.take (l.length - (-n).toNat)

/-- `SummarizationDataset.shorten(top_n)`: `None` is a no-op; a bound at most
`len(self._source)` slices the owned sequences in place (the target pair only
when a raw target exists, where reading the unassigned `self._target`
attribute would raise `AttributeError`); a larger bound is a no-op.  The
(mutated) instance itself is returned. -/
def SummarizationDataset.shorten (d : SummarizationDataset ρ π) (top_n : Option Int) :
    Except String (SummarizationDataset ρ π) :=
  match top_n with
  | none => .ok d
  | some n =>
    if n ≤ (d.source.length : Int) then
      match d.target_txt with
      | none => .ok ⟨pySlice0 d.source_txt n, pySlice0 d.source n, none, d.target⟩
      | some ttxt =>
        match d.target with
        | none => .error "AttributeError"
        | some tgt =>
          .ok ⟨pySlice0 d.source_txt n, pySlice0 d.source n,
            some (pySlice0 ttxt n), some (pySlice0 tgt n)⟩
    else .ok d

/-- The state `shorten` leaves behind when it slices: every owned sequence cut
to `l[0:top_n]`, the target pair only when a raw target exists. -/
def SummarizationDataset.sliced (d : SummarizationDataset ρ π) (n : Int) :
    SummarizationDataset ρ π :=
  ⟨pySlice0 d.source_txt n, pySlice0 d.source n,
    d.target_txt.map (fun t => pySlice0 t n),
    if d.target_txt.isSome then d.target.map (fun t => pySlice0 t n) else d.target⟩

/-- `SummarizationDataset.__getitem__(idx)` for a non-negative index:
out-of-range access raises `IndexError`; the target branch reads the
`self._target` attribute, `AttributeError` when it was never assigned. -/
def SummarizationDataset.getitem (d : SummarizationDataset ρ π) (idx : Nat) :
    Except String (Item ρ π) :=
  match d.target_txt with
  | none =>
    match d.source.get? idx, d.source_txt.get? idx with
    | some s, some st => .ok ⟨s, st, none, none⟩
    | _, _ => .error "IndexError"
  | some ttxt =>
    match d.target with
    | none => .error "AttributeError"
    | some tgt =>
      match d.source.get? idx, d.source_txt.get? idx, tgt.get? idx, ttxt.get? idx with
      | some s, some st, some t, some tt => .ok ⟨s, st, some t, some tt⟩
      | _, _, _, _ => .error "IndexError"

/-- `SummarizationDataset.__len__`: the processed-source length. -/
def SummarizationDataset.len (d : SummarizationDataset ρ π) : Nat :=
  d.source.length

/-- `SummarizationDataset.get_source`. -/
def SummarizationDataset.get_source (d : SummarizationDataset ρ π) : List π :=
  d.source

/-- `SummarizationDataset.get_source_txt`. -/
def SummarizationDataset.get_source_txt (d : SummarizationDataset ρ π) : List ρ :=
  d.source_txt

/-- `SummarizationDataset.get_target_txt`. -/
def SummarizationDataset.get_target_txt (d : SummarizationDataset ρ π) :
    Option (List ρ) :=
  d.target_txt

/-- `SummarizationDataset.get_target`: reads the `self._target` attribute,
which raises `AttributeError` when it was never assigned. -/
def SummarizationDataset.get_target (d : SummarizationDataset ρ π) :
    Except String (List π) :=
  match d.target with
  | none => .error "AttributeError"
  | some t => .ok t

/-- `SummarizationDataset.save_to_jsonl`: with no raw target, one
`{"src": ...}` record per processed-source element; otherwise one
`{"src": ..., "tgt": ...}` record per element of
`zip(self._source, self._target)` (which stops at the shorter list). -/
def SummarizationDataset.save_to_jsonl (d : SummarizationDataset ρ π) :
    Except String (List (JRecord π)) :=
  match d.target_txt with
  | none => .ok (d.source.map JRecord.srcOnly)
  | some _ =>
    match d.target with
    | none => .error "AttributeError"
    | some tgt => .ok ((d.source.zip tgt).map (fun p => JRecord.srcTgt p.1 p.2))

/- ------------------------------------------------------------------ -/
/- The streaming dataset (`IterableSummarizationDataset`).             -/
/- ------------------------------------------------------------------ -/

/-- `_create_data_from_iterator`: the generator yielding
`_preprocess(line, preprocessing, word_tokenize)` per line of the backing
iterator.  Transforms are pure, so the generator's remaining output is
determined by the remaining lines. -/
def _create_data_from_iterator (f : α → β) (lines : List α) : List β :=
  lines.map f

/-- The state of an `IterableSummarizationDataset` instance: the remaining
(not yet yielded) output of the source generator, and of the target
generator when a target file was given.  A generator never restarts, so a
pass over the instance consumes `sourceGen` permanently. -/
structure IterableSummarizationDataset (β : Type) where
  sourceGen : List β
  targetGen : Option (List β)
deriving DecidableEq, Repr

/-- `IterableSummarizationDataset.__init__`, generic over the per-line worker
function `f` (`_preprocess` with the source pipeline and tokenizer) and `g`
(the same for the target pipeline): builds the source generator over the
file's lines, sliced by `itertools.islice` to `top_n` lines when
`top_n != -1` (`islice` raises `ValueError` on a negative count, modelled
`none`); same for the target when a target file is given. -/
def mkIterableSummarizationDataset (f g : α → β)
    (source_lines : List α) (target_lines : Option (List α)) (top_n : Int) :
    Option (IterableSummarizationDataset β) :=
  if top_n = -1 then
    some ⟨_create_data_from_iterator f source_lines,
      target_lines.map (_create_data_from_iterator g)⟩
  else if top_n < 0 then none
  else
    some ⟨_create_data_from_iterator f (source_lines.take top_n.toNat),
      target_lines.map (fun tl => _create_data_from_iterator g (tl.take top_n.toNat))⟩

/-- `IterableSummarizationDataset.__iter__`: one full pass yields whatever the
source generator still holds and leaves it exhausted. -/
def IterableSummarizationDataset.iter (d : IterableSummarizationDataset β) :
    List β × IterableSummarizationDataset β :=
  (d.sourceGen, ⟨[], d.targetGen⟩)

/- ------------------------------------------------------------------ -/
/- Helper lemmas about chunking.                                       -/
/- ------------------------------------------------------------------ -/

theorem chunkListAux_flatten (k : Nat) (hk : 0 < k) :
    ∀ (fuel : Nat) (l : List α), l.length ≤ fuel →
      (chunkListAux k fuel l).flatten = l := by
  intro fuel
  induction fuel with
  | zero =>
    intro l hl
    have : l = [] := List.eq_nil_of_length_eq_zero (by omega)
    simp [this, chunkListAux]
  | succ n ih =>
    intro l hl
    match l with
    | [] => simp [chunkListAux]
    | a :: t =>
      have hdrop : ((a :: t).drop k).length ≤ n := by
        simp only [List.length_drop, List.length_cons] at *
        omega
      simp only [chunkListAux, List.flatten_cons, ih _ hdrop,
        List.take_append_drop]

theorem chunkList_flatten (k : Nat) (hk : 0 < k) (l : List α) :
    (chunkList k l).flatten = l :=
  chunkListAux_flatten k hk l.length l le_rfl

theorem chunkListAux_map (k : Nat) (f : α → β) :
    ∀ (fuel : Nat) (l : List α),
      (chunkListAux k fuel l).map (List.map f) = chunkListAux k fuel (l.map f) := by
  intro fuel
  induction fuel with
  | zero => intro l; simp [chunkListAux]
  | succ n ih =>
    intro l
    match l with
    | [] => simp [chunkListAux]
    | a :: t =>
      simp only [chunkListAux, List.map_cons, List.map_take, List.map_drop, ih]

theorem chunkList_map (k : Nat) (f : α → β) (l : List α) :
    (chunkList k l).map (List.map f) = chunkList k (l.map f) := by
  unfold chunkList
  rw [chunkListAux_map, List.length_map]

theorem parallel_preprocess_some (cpu_count : Nat) (f : α → β) (l : List α)
    (num_pool : Int) (r : List β)
    (h : parallel_preprocess cpu_count f l num_pool = some r) :
    r = l.map f := by
  unfold parallel_preprocess at h
  split at h
  · exact absurd h (by simp)
  · split at h
    · exact absurd h (by simp)
    · rename_i hnp hcs
      have hcs' : 0 < pool_chunksize l.length (resolved_pool cpu_count num_pool l.length).toNat :=
        Nat.pos_of_ne_zero hcs
      rw [Option.some_inj] at h
      rw [← h, chunkList_map, chunkList_flatten _ hcs']

theorem parallel_preprocess_eq_map (cpu_count : Nat) (f : α → β) (l : List α)
    (num_pool : Int)
    (hl : l ≠ []) (hnp : num_pool = -1 ∧ 1 ≤ cpu_count ∨ 1 ≤ num_pool) :
    parallel_preprocess cpu_count f l num_pool = some (l.map f) := by
  have hlen : 0 < l.length := List.length_pos.mpr hl
  have hres : 1 ≤ resolved_pool cpu_count num_pool l.length := by
    unfold resolved_pool
    rcases hnp with ⟨h1, h2⟩ | h1 <;> simp_all <;> omega
  have htoNat : 1 ≤ (resolved_pool cpu_count num_pool l.length).toNat := by omega
  have hle : (resolved_pool cpu_count num_pool l.length).toNat ≤ l.length := by
    have : resolved_pool cpu_count num_pool l.length ≤ (l.length : Int) :=
      min_le_right _ _
    omega
  have hcs : pool_chunksize l.length (resolved_pool cpu_count num_pool l.length).toNat = 1 := by
    unfold pool_chunksize
    have : 1 ≤ l.length / (resolved_pool cpu_count num_pool l.length).toNat :=
      (Nat.one_le_div_iff (by omega)).mpr hle
    omega
  have hdef : parallel_preprocess cpu_count f l num_pool =
      some (((chunkList 1 l).map (List.map f)).flatten) := by
    unfold parallel_preprocess
    rw [if_neg (by omega)]
    simp only [hcs]
    rw [if_neg (by omega)]
  rw [hdef, Option.some_inj]
  exact parallel_preprocess_some cpu_count f l num_pool _ hdef

/- ------------------------------------------------------------------ -/
/- Characterizations of the constructors.                              -/
/- ------------------------------------------------------------------ -/

theorem mkSummarizationDatasetU_ok (cpu_count : Nat) (len_ : α → Nat)
    (sfl src tfl tgt : Option (List α))
    (spp tpp : Option (List (α → α))) (top_n n_processes : Int)
    (stxt ttxt : List α)
    (hstxt : combined_txt sfl src top_n = some stxt)
    (httxt : combined_txt tfl tgt top_n = some ttxt)
    (hs : stxt ≠ [])
    (hnp : n_processes = -1 ∧ 1 ≤ cpu_count ∨ 1 ≤ n_processes)
    (hlen : ttxt ≠ [] → stxt.length = ttxt.length) :
    mkSummarizationDatasetU cpu_count len_ sfl src tfl tgt spp tpp top_n n_processes =
      .ok ⟨stxt,
        (stxt.map (_preprocess spp)).filter (fun x => 0 < len_ x),
        if ttxt.length = 0 then none else some ttxt,
        if ttxt.length = 0 then none
          else some ((ttxt.map (_preprocess tpp)).filter (fun x => 0 < len_ x))⟩ := by
  unfold mkSummarizationDatasetU
  rw [hstxt, httxt]
  dsimp only
  have hcond : ¬ (ttxt.length ≠ 0 ∧ stxt.length ≠ ttxt.length) := by
    by_cases h0 : ttxt.length = 0
    · simp [h0]
    · have hne : ttxt ≠ [] := fun h => h0 (by simp [h])
      simp [hlen hne]
  rw [if_neg hcond, parallel_preprocess_eq_map cpu_count _ stxt n_processes hs hnp]
  dsimp only
  by_cases h0 : ttxt.length = 0
  · simp [h0]
  · have hne : ttxt ≠ [] := fun h => h0 (by simp [h])
    rw [if_neg h0, parallel_preprocess_eq_map cpu_count _ ttxt n_processes hne hnp]
    simp [h0]

theorem mkSummarizationDatasetT_ok (cpu_count : Nat)
    (sfl src tfl tgt : Option (List (List σ)))
    (spp tpp : Option (List (List σ → List σ)))
    (word_tokenize : σ → List τ) (top_n n_processes : Int)
    (stxt ttxt : List (List σ))
    (hstxt : combined_txt sfl src top_n = some stxt)
    (httxt : combined_txt tfl tgt top_n = some ttxt)
    (hs : stxt ≠ [])
    (hnp : n_processes = -1 ∧ 1 ≤ cpu_count ∨ 1 ≤ n_processes)
    (hlen : ttxt ≠ [] → stxt.length = ttxt.length) :
    mkSummarizationDatasetT cpu_count sfl src tfl tgt spp tpp word_tokenize
        top_n n_processes =
      .ok ⟨((stxt.map (_preprocessTok spp word_tokenize)).filter
              (fun x => 0 < x.1.length)).map (fun x => x.1),
        ((stxt.map (_preprocessTok spp word_tokenize)).filter
              (fun x => 0 < x.2.length)).map (fun x => x.2),
        if ttxt.length = 0 then none
          else some (((ttxt.map (_preprocessTok tpp word_tokenize)).filter
              (fun x => 0 < x.1.length)).map (fun x => x.1)),
        if ttxt.length = 0 then none
          else some (((ttxt.map (_preprocessTok tpp word_tokenize)).filter
              (fun x => 0 < x.2.length)).map (fun x => x.2))⟩ := by
  unfold mkSummarizationDatasetT
  rw [hstxt, httxt]
  dsimp only
  have hcond : ¬ (ttxt.length ≠ 0 ∧ stxt.length ≠ ttxt.length) := by
    by_cases h0 : ttxt.length = 0
    · simp [h0]
    · have hne : ttxt ≠ [] := fun h => h0 (by simp [h])
      simp [hlen hne]
  rw [if_neg hcond, parallel_preprocess_eq_map cpu_count _ stxt n_processes hs hnp]
  dsimp only
  by_cases h0 : ttxt.length = 0
  · simp [h0]
  · have hne : ttxt ≠ [] := fun h => h0 (by simp [h])
    rw [if_neg h0, parallel_preprocess_eq_map cpu_count _ ttxt n_processes hne hnp]
    simp [h0]

/- ------------------------------------------------------------------ -/
/- Helper lemmas about filtering, slicing and shortening.              -/
/- ------------------------------------------------------------------ -/

theorem filter_get_of_dropped_before {p : α → Bool} {m : List α} {i : Nat}
    (hi : i < (m.filter p).length)
    (j : Nat) (hj : j < m.length) (hji : j ≤ i) (hpj : ¬ p (m.get ⟨j, hj⟩)) :
    ∃ k, ∃ hk : k < m.length, i < k ∧ (m.filter p).get ⟨i, hi⟩ = m.get ⟨k, hk⟩ := by
  have hflt : m.filter p = (m.take (i+1)).filter p ++ (m.drop (i+1)).filter p := by
    conv_lhs => rw [← List.take_append_drop (i+1) m]
    exact List.filter_append _ _
  have hjt : j < (m.take (i+1)).length := by
    simp only [List.length_take]
    omega
  have hmem : m.get ⟨j, hj⟩ ∈ m.take (i+1) := by
    have h1 : (m.take (i+1))[j] = m[j] := List.getElem_take m
    rw [List.get_eq_getElem, ← h1]
    exact List.getElem_mem hjt
  have hlt : ((m.take (i+1)).filter p).length < (m.take (i+1)).length := by
    rcases Nat.lt_or_ge ((m.take (i+1)).filter p).length (m.take (i+1)).length with h | h
    · exact h
    · exact absurd ((List.filter_length_eq_length).mp
        (le_antisymm (List.length_filter_le _ _) h) _ hmem) hpj
  have hlen1 : ((m.take (i+1)).filter p).length ≤ i := by
    have : (m.take (i+1)).length ≤ i + 1 := by simp
    omega
  have hidx : i - ((m.take (i+1)).filter p).length < ((m.drop (i+1)).filter p).length := by
    have : (m.filter p).length =
        ((m.take (i+1)).filter p).length + ((m.drop (i+1)).filter p).length := by
      rw [hflt, List.length_append]
    omega
  have hget : (m.filter p)[i] =
      ((m.drop (i+1)).filter p)[i - ((m.take (i+1)).filter p).length] := by
    rw [List.getElem_of_eq hflt hi]
    exact List.getElem_append_right hlen1
  have hmem2 : ((m.drop (i+1)).filter p)[i - ((m.take (i+1)).filter p).length] ∈
      m.drop (i+1) :=
    List.mem_of_mem_filter (List.getElem_mem hidx)
  obtain ⟨k', hk', hk'eq⟩ := List.mem_iff_getElem.mp hmem2
  have hkm : i + 1 + k' < m.length := by
    simp only [List.length_drop] at hk'
    omega
  refine ⟨i + 1 + k', hkm, by omega, ?_⟩
  rw [List.get_eq_getElem, List.get_eq_getElem, hget, ← hk'eq]
  simp [List.getElem_drop]

theorem pySlice0_ofNat (l : List α) (n : Nat) : pySlice0 l (n : Int) = l.take n := by
  unfold pySlice0
  rw [if_pos (by omega)]
  simp

theorem shorten_eq_sliced (d : SummarizationDataset ρ π)
    (hwf : d.target_txt.isSome → d.target.isSome)
    (n : Int) (hn : n ≤ (d.source.length : Int)) :
    d.shorten (some n) = .ok (d.sliced n) := by
  unfold SummarizationDataset.shorten SummarizationDataset.sliced
  dsimp only
  rw [if_pos hn]
  match httxt : d.target_txt with
  | none => simp
  | some ttxt =>
    have hsome : d.target.isSome := hwf (by simp [httxt])
    match htgt : d.target with
    | none => simp [htgt] at hsome
    | some tgt => simp

theorem pool_chunksize_eq_one (l : List α) (hl : l ≠ [])
    (cpu_count : Nat) (num_pool : Int)
    (hnp : num_pool = -1 ∧ 1 ≤ cpu_count ∨ 1 ≤ num_pool) :
    pool_chunksize l.length (resolved_pool cpu_count num_pool l.length).toNat = 1 := by
  have hlen : 0 < l.length := List.length_pos.mpr hl
  have hres : 1 ≤ resolved_pool cpu_count num_pool l.length := by
    unfold resolved_pool
    rcases hnp with ⟨h1, h2⟩ | h1 <;> simp_all <;> omega
  have hle : (resolved_pool cpu_count num_pool l.length).toNat ≤ l.length := by
    have : resolved_pool cpu_count num_pool l.length ≤ (l.length : Int) :=
      min_le_right _ _
    omega
  unfold pool_chunksize
  have : 1 ≤ l.length / (resolved_pool cpu_count num_pool l.length).toNat :=
    (Nat.one_le_div_iff (by omega)).mpr hle
  omega

/- ------------------------------------------------------------------ -/
/- Claim theorems.                                                     -/
/- ------------------------------------------------------------------ -/

/-- C1: for every non-empty input list and `worker_count = -1` (with at least
one CPU available), `parallel_preprocess` returns the list obtained by
applying the Preprocessing Primitive (`_preprocess`, same transform chain and
tokenizer) sequentially to each item: the same length as the input, and the
element at index `i` is the processed input element at index `i`, in input
order — shown for the untokenized and the tokenized primitive alike. -/
theorem parallel_preprocess_refines_sequential
    (cpu_count : Nat) (hcpu : 1 ≤ cpu_count)
    (spp : Option (List (α → α))) (l : List α) (hl : l ≠ []) (i : Nat)
    (tpp : Option (List (List σ → List σ))) (wt : σ → List τ)
    (l2 : List (List σ)) (hl2 : l2 ≠ []) :
    parallel_preprocess cpu_count (_preprocess spp) l (-1) =
        some (l.map (_preprocess spp))
    ∧ (l.map (_preprocess spp)).length = l.length
    ∧ (l.map (_preprocess spp)).get? i = (l.get? i).map (_preprocess spp)
    ∧ parallel_preprocess cpu_count (_preprocessTok tpp wt) l2 (-1) =
        some (l2.map (_preprocessTok tpp wt)) :=
  ⟨parallel_preprocess_eq_map _ _ _ _ hl (Or.inl ⟨rfl, hcpu⟩),
    by simp,
    by simp [List.get?_map],
    parallel_preprocess_eq_map _ _ _ _ hl2 (Or.inl ⟨rfl, hcpu⟩)⟩

theorem parallel_preprocess_refines_sequential_witness :
    parallel_preprocess 2 (_preprocess (α := String) none) ["a", "b"] (-1) =
        some ((["a", "b"] : List String).map (_preprocess none))
    ∧ ((["a", "b"] : List String).map (_preprocess none)).length =
        (["a", "b"] : List String).length
    ∧ ((["a", "b"] : List String).map (_preprocess none)).get? 0 =
        ((["a", "b"] : List String).get? 0).map (_preprocess none)
    ∧ parallel_preprocess 2 (_preprocessTok (σ := String) (τ := String) none (fun s => [s]))
        [["x"]] (-1) =
        some (([["x"]] : List (List String)).map (_preprocessTok none (fun s => [s]))) :=
  parallel_preprocess_refines_sequential 2 (by decide) none ["a", "b"] (by decide) 0
    none (fun s => [s]) [["x"]] (by decide)

/-- C2 (the code lacks the guard the spec describes): on the empty input list
with `worker_count = -1` the resolved pool size is `min(cpu_count(), 0) = 0`,
and `parallel_preprocess` constructs `Pool(0)`, which raises `ValueError`
(modelled `none`) instead of returning an empty list. -/
theorem parallel_preprocess_empty_input_fails (cpu_count : Nat) (f : α → β) :
    resolved_pool cpu_count (-1) (List.length ([] : List α)) = 0
    ∧ parallel_preprocess cpu_count f [] (-1) = none := by
  have h0 : resolved_pool cpu_count (-1) (List.length ([] : List α)) = 0 := by
    unfold resolved_pool
    simp
  refine ⟨h0, ?_⟩
  unfold parallel_preprocess
  rw [if_pos (by rw [h0]; omega)]

/-- C8: for every non-empty input list and every worker-count argument that
resolves to a positive pool size (`-1` with at least one CPU, or an explicit
positive count), the `chunksize` that `parallel_preprocess` passes to
`Pool.map` is at least 1 — never 0, even for small item counts — and the call
itself succeeds. -/
theorem pool_chunksize_at_least_one (l : List α) (hl : l ≠ [])
    (cpu_count : Nat) (num_pool : Int)
    (hnp : num_pool = -1 ∧ 1 ≤ cpu_count ∨ 1 ≤ num_pool) (f : α → β) :
    1 ≤ pool_chunksize l.length (resolved_pool cpu_count num_pool l.length).toNat
    ∧ (parallel_preprocess cpu_count f l num_pool).isSome := by
  refine ⟨le_of_eq (pool_chunksize_eq_one l hl cpu_count num_pool hnp).symm, ?_⟩
  rw [parallel_preprocess_eq_map cpu_count f l num_pool hl hnp]
  rfl

theorem pool_chunksize_at_least_one_witness :
    1 ≤ pool_chunksize (["a"] : List String).length
        (resolved_pool 8 (-1) (["a"] : List String).length).toNat
    ∧ (parallel_preprocess 8 (_preprocess (α := String) none) ["a"] (-1)).isSome :=
  pool_chunksize_at_least_one ["a"] (by decide) 8 (-1) (Or.inl ⟨rfl, by decide⟩)
    (_preprocess none)

/-- C6: whenever a target corpus is supplied (the combined target lines are
non-empty) and its length differs from the combined source's, the constructor
fails with the assertion `len(self._source_txt) == len(self._target_txt)`
before any processing — shown for the untokenized and the tokenized
constructor alike. -/
theorem constructor_rejects_length_mismatch
    (cpu_count : Nat) (len_ : α → Nat)
    (sfl src tfl tgt : Option (List α)) (spp tpp : Option (List (α → α)))
    (top_n n_processes : Int) (stxt ttxt : List α)
    (hstxt : combined_txt sfl src top_n = some stxt)
    (httxt : combined_txt tfl tgt top_n = some ttxt)
    (hne : ttxt ≠ []) (hmm : stxt.length ≠ ttxt.length)
    (sfl2 src2 tfl2 tgt2 : Option (List (List σ)))
    (spp2 tpp2 : Option (List (List σ → List σ))) (wt : σ → List τ)
    (stxt2 ttxt2 : List (List σ))
    (hstxt2 : combined_txt sfl2 src2 top_n = some stxt2)
    (httxt2 : combined_txt tfl2 tgt2 top_n = some ttxt2)
    (hne2 : ttxt2 ≠ []) (hmm2 : stxt2.length ≠ ttxt2.length) :
    mkSummarizationDatasetU cpu_count len_ sfl src tfl tgt spp tpp
        top_n n_processes = .error "AssertionError"
    ∧ mkSummarizationDatasetT cpu_count sfl2 src2 tfl2 tgt2 spp2 tpp2 wt
        top_n n_processes = .error "AssertionError" := by
  constructor
  · unfold mkSummarizationDatasetU
    rw [hstxt, httxt]
    dsimp only
    rw [if_pos ⟨fun h => hne (List.eq_nil_of_length_eq_zero h), hmm⟩]
  · unfold mkSummarizationDatasetT
    rw [hstxt2, httxt2]
    dsimp only
    rw [if_pos ⟨fun h => hne2 (List.eq_nil_of_length_eq_zero h), hmm2⟩]

theorem constructor_rejects_length_mismatch_witness :
    mkSummarizationDatasetU 2 String.length (some ["a", "b", "c"]) none
        (some ["x", "y"]) none none none (-1) (-1) = .error "AssertionError"
    ∧ mkSummarizationDatasetT 2 (some [["a"], ["b"], ["c"]]) none
        (some [["x"], ["y"]]) none none none (fun (s : String) => [s]) (-1) (-1) =
        .error "AssertionError" :=
  constructor_rejects_length_mismatch 2 String.length
    (some ["a", "b", "c"]) none (some ["x", "y"]) none none none (-1) (-1)
    ["a", "b", "c"] ["x", "y"] rfl rfl (by decide) (by decide)
    (some [["a"], ["b"], ["c"]]) none (some [["x"], ["y"]]) none none none
    (fun s => [s]) [["a"], ["b"], ["c"]] [["x"], ["y"]] rfl rfl (by decide) (by decide)

/-- C7: iterating a streaming dataset instance yields the processed source
items (`_preprocess` of each line) in file order, capped at the first `top_n`
lines when `top_n != -1`; a second iteration of the same instance yields the
empty sequence, because the backing generator is permanently exhausted. -/
theorem streaming_single_pass_then_exhausted
    (spp tpp : Option (List (α → α))) (lines : List α) (tlines : Option (List α))
    (top_n : Int) (htop : top_n = -1 ∨ 0 ≤ top_n)
    (d : IterableSummarizationDataset α)
    (hmk : mkIterableSummarizationDataset (_preprocess spp) (_preprocess tpp)
        lines tlines top_n = some d) :
    d.iter.1 = (if top_n = -1 then lines else lines.take top_n.toNat).map
        (_preprocess spp)
    ∧ d.iter.2.iter.1 = [] := by
  unfold mkIterableSummarizationDataset at hmk
  rcases htop with h | h
  · rw [if_pos h] at hmk
    rw [Option.some_inj] at hmk
    rw [← hmk, if_pos h]
    exact ⟨rfl, rfl⟩
  · by_cases h1 : top_n = -1
    · omega
    · rw [if_neg h1, if_neg (by omega)] at hmk
      rw [Option.some_inj] at hmk
      rw [← hmk, if_neg h1]
      exact ⟨rfl, rfl⟩

theorem streaming_single_pass_then_exhausted_witness :
    (IterableSummarizationDataset.iter
        (⟨["l1", "l2"].map (_preprocess none), none⟩ :
          IterableSummarizationDataset String)).1 =
      (if (-1 : Int) = -1 then ["l1", "l2"] else
        ["l1", "l2"].take (-1 : Int).toNat).map (_preprocess none)
    ∧ (IterableSummarizationDataset.iter
        (IterableSummarizationDataset.iter
          (⟨["l1", "l2"].map (_preprocess none), none⟩ :
            IterableSummarizationDataset String)).2).1 = [] :=
  streaming_single_pass_then_exhausted (α := String) none none
    ["l1", "l2"] none (-1) (Or.inl rfl)
    ⟨["l1", "l2"].map (_preprocess none), none⟩ rfl

/-- C3: construction filters each corpus independently: the processed source
keeps exactly the source results whose processed component (the raw result
when untokenized) is non-empty, the processed target exactly the target
results whose own processed component is non-empty, with no cross-corpus
index reconciliation — shown by the full constructor result for the
untokenized and the tokenized constructor. -/
theorem dataset_filters_each_corpus_independently
    (cpu_count : Nat) (len_ : α → Nat)
    (sfl src tfl tgt : Option (List α)) (spp tpp : Option (List (α → α)))
    (top_n n_processes : Int) (stxt ttxt : List α)
    (hstxt : combined_txt sfl src top_n = some stxt)
    (httxt : combined_txt tfl tgt top_n = some ttxt)
    (hs : stxt ≠ [])
    (hnp : n_processes = -1 ∧ 1 ≤ cpu_count ∨ 1 ≤ n_processes)
    (hlen : ttxt ≠ [] → stxt.length = ttxt.length)
    (sfl2 src2 tfl2 tgt2 : Option (List (List σ)))
    (spp2 tpp2 : Option (List (List σ → List σ))) (wt : σ → List τ)
    (stxt2 ttxt2 : List (List σ))
    (hstxt2 : combined_txt sfl2 src2 top_n = some stxt2)
    (httxt2 : combined_txt tfl2 tgt2 top_n = some ttxt2)
    (hs2 : stxt2 ≠ [])
    (hlen2 : ttxt2 ≠ [] → stxt2.length = ttxt2.length) :
    mkSummarizationDatasetU cpu_count len_ sfl src tfl tgt spp tpp
        top_n n_processes =
      .ok ⟨stxt,
        (stxt.map (_preprocess spp)).filter (fun x => 0 < len_ x),
        if ttxt.length = 0 then none else some ttxt,
        if ttxt.length = 0 then none
          else some ((ttxt.map (_preprocess tpp)).filter (fun x => 0 < len_ x))⟩
    ∧ mkSummarizationDatasetT cpu_count sfl2 src2 tfl2 tgt2 spp2 tpp2 wt
        top_n n_processes =
      .ok ⟨((stxt2.map (_preprocessTok spp2 wt)).filter
              (fun x => 0 < x.1.length)).map (fun x => x.1),
        ((stxt2.map (_preprocessTok spp2 wt)).filter
              (fun x => 0 < x.2.length)).map (fun x => x.2),
        if ttxt2.length = 0 then none
          else some (((ttxt2.map (_preprocessTok tpp2 wt)).filter
              (fun x => 0 < x.1.length)).map (fun x => x.1)),
        if ttxt2.length = 0 then none
          else some (((ttxt2.map (_preprocessTok tpp2 wt)).filter
              (fun x => 0 < x.2.length)).map (fun x => x.2))⟩ :=
  ⟨mkSummarizationDatasetU_ok cpu_count len_ sfl src tfl tgt spp tpp
      top_n n_processes stxt ttxt hstxt httxt hs hnp hlen,
    mkSummarizationDatasetT_ok cpu_count sfl2 src2 tfl2 tgt2 spp2 tpp2 wt
      top_n n_processes stxt2 ttxt2 hstxt2 httxt2 hs2 hnp hlen2⟩

theorem dataset_filters_each_corpus_independently_witness :
    mkSummarizationDatasetU 2 String.length (some ["a", ""]) none
        (some ["c", ""]) none none none (-1) (-1) =
      .ok ⟨["a", ""],
        ((["a", ""] : List String).map (_preprocess none)).filter
          (fun x => 0 < String.length x),
        if (["c", ""] : List String).length = 0 then none else some ["c", ""],
        if (["c", ""] : List String).length = 0 then none
          else some (((["c", ""] : List String).map (_preprocess none)).filter
            (fun x => 0 < String.length x))⟩
    ∧ mkSummarizationDatasetT 2 (some [["s1"], []]) none none none
        none none (fun (s : String) => [s]) (-1) (-1) =
      .ok ⟨((([["s1"], []] : List (List String)).map
              (_preprocessTok none (fun s => [s]))).filter
              (fun x => 0 < x.1.length)).map (fun x => x.1),
        ((([["s1"], []] : List (List String)).map
              (_preprocessTok none (fun s => [s]))).filter
              (fun x => 0 < x.2.length)).map (fun x => x.2),
        if (List.length ([] : List (List String))) = 0 then none
          else some (((([] : List (List String)).map
              (_preprocessTok none (fun s => [s]))).filter
              (fun x => 0 < x.1.length)).map (fun x => x.1)),
        if (List.length ([] : List (List String))) = 0 then none
          else some (((([] : List (List String)).map
              (_preprocessTok none (fun s => [s]))).filter
              (fun x => 0 < x.2.length)).map (fun x => x.2))⟩ :=
  dataset_filters_each_corpus_independently 2 String.length
    (some ["a", ""]) none (some ["c", ""]) none none none (-1) (-1)
    ["a", ""] ["c", ""] rfl rfl (by decide) (Or.inl ⟨rfl, by decide⟩)
    (fun _ => by decide)
    (some [["s1"], []]) none none none none none (fun s => [s])
    [["s1"], []] [] rfl rfl (by decide) (fun h => absurd rfl h)

/-- C4: on a dataset of length `L = len(self._source)`, `shorten(n)` with
`n <= L` leaves length exactly `n` and every owned sequence cut to its
original first `n` entries in order; `shorten(m)` with `m > L`, and
`shorten(None)`, leave the dataset unchanged; repeating `shorten(n)` on the
result changes nothing; in every case the instance itself is returned. -/
theorem shorten_spec (d : SummarizationDataset ρ π)
    (hwf : d.target_txt.isSome → d.target.isSome)
    (n : Nat) (hn : n ≤ d.len) (m : Int) (hm : (d.len : Int) < m) :
    d.shorten (some (n : Int)) = .ok (d.sliced (n : Int))
    ∧ (d.sliced (n : Int)).len = n
    ∧ (d.sliced (n : Int)).source = d.source.take n
    ∧ (d.sliced (n : Int)).source_txt = d.source_txt.take n
    ∧ (d.sliced (n : Int)).target_txt = d.target_txt.map (fun t => t.take n)
    ∧ (d.sliced (n : Int)).target =
        (if d.target_txt.isSome then d.target.map (fun t => t.take n) else d.target)
    ∧ (d.sliced (n : Int)).shorten (some (n : Int)) = .ok (d.sliced (n : Int))
    ∧ d.shorten (some m) = .ok d
    ∧ d.shorten none = .ok d := by
  have hsrc : pySlice0 d.source (n : Int) = d.source.take n := pySlice0_ofNat _ _
  have hlen0 : (d.sliced (n : Int)).source = d.source.take n := hsrc
  have hwf2 : (d.sliced (n : Int)).target_txt.isSome →
      (d.sliced (n : Int)).target.isSome := by
    unfold SummarizationDataset.sliced
    cases htt : d.target_txt with
    | none => simp
    | some tt =>
      have := hwf (by simp [htt])
      cases htg : d.target with
      | none => simp [htg] at this
      | some tg => simp [htt]
  refine ⟨shorten_eq_sliced d hwf (n : Int)
      (by have h : n ≤ d.source.length := hn; omega),
    ?_, hlen0, pySlice0_ofNat _ _, ?_, ?_, ?_, ?_, rfl⟩
  · unfold SummarizationDataset.len
    rw [hlen0, List.length_take]
    have h : n ≤ d.source.length := hn
    omega
  · unfold SummarizationDataset.sliced
    cases d.target_txt <;> simp [pySlice0_ofNat]
  · unfold SummarizationDataset.sliced
    cases htt : d.target_txt with
    | none => simp
    | some tt =>
      cases htg : d.target with
      | none => simp
      | some tg => simp [pySlice0_ofNat]
  · have h2 := shorten_eq_sliced (d.sliced (n : Int)) hwf2 (n : Int)
      (by rw [hlen0, List.length_take]
          have h : n ≤ d.source.length := hn
          omega)
    rw [h2]
    congr 1
    unfold SummarizationDataset.sliced
    cases htt : d.target_txt with
    | none =>
      cases htg : d.target <;>
        simp [pySlice0_ofNat, List.take_take]
    | some tt =>
      cases htg : d.target with
      | none =>
        have := hwf (by simp [htt])
        simp [htg] at this
      | some tg =>
        simp [pySlice0_ofNat, List.take_take]
  · unfold SummarizationDataset.shorten
    dsimp only
    rw [if_neg (by have h : (d.source.length : Int) < m := hm; omega)]

theorem shorten_spec_witness :
    (⟨["a", "b", "c"], ["a", "b", "c"], some ["x", "y", "z"], some ["x", "y", "z"]⟩ :
        SummarizationDataset String String).shorten (some ((2 : Nat) : Int)) =
      .ok ((⟨["a", "b", "c"], ["a", "b", "c"], some ["x", "y", "z"],
        some ["x", "y", "z"]⟩ : SummarizationDataset String String).sliced
          ((2 : Nat) : Int))
    ∧ ((⟨["a", "b", "c"], ["a", "b", "c"], some ["x", "y", "z"], some ["x", "y", "z"]⟩ :
        SummarizationDataset String String).sliced ((2 : Nat) : Int)).len = 2
    ∧ ((⟨["a", "b", "c"], ["a", "b", "c"], some ["x", "y", "z"], some ["x", "y", "z"]⟩ :
        SummarizationDataset String String).sliced ((2 : Nat) : Int)).source =
        ["a", "b", "c"].take 2
    ∧ ((⟨["a", "b", "c"], ["a", "b", "c"], some ["x", "y", "z"], some ["x", "y", "z"]⟩ :
        SummarizationDataset String String).sliced ((2 : Nat) : Int)).source_txt =
        ["a", "b", "c"].take 2
    ∧ ((⟨["a", "b", "c"], ["a", "b", "c"], some ["x", "y", "z"], some ["x", "y", "z"]⟩ :
        SummarizationDataset String String).sliced ((2 : Nat) : Int)).target_txt =
        (some ["x", "y", "z"]).map (fun t => t.take 2)
    ∧ ((⟨["a", "b", "c"], ["a", "b", "c"], some ["x", "y", "z"], some ["x", "y", "z"]⟩ :
        SummarizationDataset String String).sliced ((2 : Nat) : Int)).target =
        (if (some ["x", "y", "z"] : Option (List String)).isSome then
          (some ["x", "y", "z"] : Option (List String)).map (fun t => t.take 2)
         else some ["x", "y", "z"])
    ∧ (((⟨["a", "b", "c"], ["a", "b", "c"], some ["x", "y", "z"], some ["x", "y", "z"]⟩ :
        SummarizationDataset String String).sliced ((2 : Nat) : Int)).shorten
          (some ((2 : Nat) : Int))) =
      .ok ((⟨["a", "b", "c"], ["a", "b", "c"], some ["x", "y", "z"],
        some ["x", "y", "z"]⟩ : SummarizationDataset String String).sliced
          ((2 : Nat) : Int))
    ∧ (⟨["a", "b", "c"], ["a", "b", "c"], some ["x", "y", "z"], some ["x", "y", "z"]⟩ :
        SummarizationDataset String String).shorten (some 5) =
      .ok ⟨["a", "b", "c"], ["a", "b", "c"], some ["x", "y", "z"], some ["x", "y", "z"]⟩
    ∧ (⟨["a", "b", "c"], ["a", "b", "c"], some ["x", "y", "z"], some ["x", "y", "z"]⟩ :
        SummarizationDataset String String).shorten none =
      .ok ⟨["a", "b", "c"], ["a", "b", "c"], some ["x", "y", "z"], some ["x", "y", "z"]⟩ :=
  shorten_spec
    ⟨["a", "b", "c"], ["a", "b", "c"], some ["x", "y", "z"], some ["x", "y", "z"]⟩
    (fun _ => rfl) 2 (by decide) 5 (by decide)

/-- C5 (amended): `save_to_jsonl` writes, in index order, one `{src}` record
per processed-source element when no target exists — exactly `length()`
records, record `i` carrying `get(i)["src"]` — and, when a target exists, one
`{src, tgt}` record per element of `zip(self._source, self._target)`: that is
`min(length(), len(self._target))` records (equal to `length()` only when the
processed target is at least as long as the processed source), record `i`
carrying `get(i)["src"]` and `get(i)["tgt"]` at indices valid in all owned
sequences. -/
theorem save_to_jsonl_writes_zip_records (d : SummarizationDataset ρ π)
    (t : List π) (ttxt : List ρ) (i : Nat)
    (hi : i < d.source.length) (his : i < d.source_txt.length)
    (hit : i < t.length) (hitt : i < ttxt.length) :
    (d.target_txt = none → d.save_to_jsonl = .ok (d.source.map JRecord.srcOnly)
      ∧ (d.source.map JRecord.srcOnly).length = d.len
      ∧ (d.source.map JRecord.srcOnly).get? i = some (.srcOnly (d.source.get ⟨i, hi⟩))
      ∧ d.getitem i = .ok ⟨d.source.get ⟨i, hi⟩, d.source_txt.get ⟨i, his⟩, none, none⟩)
    ∧ (d.target_txt = some ttxt → d.target = some t →
      d.save_to_jsonl = .ok ((d.source.zip t).map (fun p => JRecord.srcTgt p.1 p.2))
      ∧ (d.source.zip t).length = min d.len t.length
      ∧ (d.source.zip t).get? i = some (d.source.get ⟨i, hi⟩, t.get ⟨i, hit⟩)
      ∧ d.getitem i = .ok ⟨d.source.get ⟨i, hi⟩, d.source_txt.get ⟨i, his⟩,
          some (t.get ⟨i, hit⟩), some (ttxt.get ⟨i, hitt⟩)⟩) := by
  constructor
  · intro h
    refine ⟨?_, by simp [SummarizationDataset.len], ?_, ?_⟩
    · unfold SummarizationDataset.save_to_jsonl
      rw [h]
    · rw [List.get?_eq_get (by simpa using hi)]
      simp
    · unfold SummarizationDataset.getitem
      rw [h, List.get?_eq_get hi, List.get?_eq_get his]
  · intro htt htg
    have hz : i < (d.source.zip t).length := by
      rw [List.length_zip]
      omega
    refine ⟨?_, List.length_zip .., ?_, ?_⟩
    · unfold SummarizationDataset.save_to_jsonl
      rw [htt, htg]
    · rw [List.get?_eq_get hz]
      congr 1
      rw [List.get_eq_getElem, List.getElem_zip]
      simp
    · unfold SummarizationDataset.getitem
      rw [htt, htg]
      dsimp only
      rw [List.get?_eq_get hi, List.get?_eq_get his,
        List.get?_eq_get hit, List.get?_eq_get hitt]

theorem save_to_jsonl_writes_zip_records_witness :
    ((⟨["a", "b"], ["a", "b"], some ["c", "d"], some ["c"]⟩ :
        SummarizationDataset String String).target_txt = none →
      (⟨["a", "b"], ["a", "b"], some ["c", "d"], some ["c"]⟩ :
        SummarizationDataset String String).save_to_jsonl =
          .ok ((["a", "b"] : List String).map JRecord.srcOnly)
      ∧ ((["a", "b"] : List String).map JRecord.srcOnly).length =
          (⟨["a", "b"], ["a", "b"], some ["c", "d"], some ["c"]⟩ :
            SummarizationDataset String String).len
      ∧ ((["a", "b"] : List String).map JRecord.srcOnly).get? 0 =
          some (.srcOnly ((["a", "b"] : List String).get ⟨0, by decide⟩))
      ∧ (⟨["a", "b"], ["a", "b"], some ["c", "d"], some ["c"]⟩ :
          SummarizationDataset String String).getitem 0 =
          .ok ⟨(["a", "b"] : List String).get ⟨0, by decide⟩,
            (["a", "b"] : List String).get ⟨0, by decide⟩, none, none⟩)
    ∧ ((⟨["a", "b"], ["a", "b"], some ["c", "d"], some ["c"]⟩ :
        SummarizationDataset String String).target_txt = some ["c", "d"] →
      (⟨["a", "b"], ["a", "b"], some ["c", "d"], some ["c"]⟩ :
        SummarizationDataset String String).target = some ["c"] →
      (⟨["a", "b"], ["a", "b"], some ["c", "d"], some ["c"]⟩ :
        SummarizationDataset String String).save_to_jsonl =
          .ok (((["a", "b"] : List String).zip ["c"]).map
            (fun p => JRecord.srcTgt p.1 p.2))
      ∧ ((["a", "b"] : List String).zip ["c"]).length =
          min (⟨["a", "b"], ["a", "b"], some ["c", "d"], some ["c"]⟩ :
            SummarizationDataset String String).len (["c"] : List String).length
      ∧ ((["a", "b"] : List String).zip ["c"]).get? 0 =
          some ((["a", "b"] : List String).get ⟨0, by decide⟩,
            (["c"] : List String).get ⟨0, by decide⟩)
      ∧ (⟨["a", "b"], ["a", "b"], some ["c", "d"], some ["c"]⟩ :
          SummarizationDataset String String).getitem 0 =
          .ok ⟨(["a", "b"] : List String).get ⟨0, by decide⟩,
            (["a", "b"] : List String).get ⟨0, by decide⟩,
            some ((["c"] : List String).get ⟨0, by decide⟩),
            some ((["c", "d"] : List String).get ⟨0, by decide⟩)⟩) :=
  save_to_jsonl_writes_zip_records
    ⟨["a", "b"], ["a", "b"], some ["c", "d"], some ["c"]⟩
    ["c"] ["c", "d"] 0 (by decide) (by decide) (by decide) (by decide)

/-- C5 counterexample: a dataset built by the constructor itself — source
lines `["a", "b"]`, target lines `["c", "d"]`, a target transform that maps
`"d"` to the empty string — has `length() = 2` but `save_to_jsonl` writes
only one record, because `zip` stops at the shorter processed-target list;
so "exactly `length()` records, record `i` matching `get(i)`" fails. -/
theorem save_roundtrip_counterexample :
    mkSummarizationDatasetU 2 String.length (some ["a", "b"]) none
        (some ["c", "d"]) none none
        (some [fun s => if s = "d" then "" else s]) (-1) (-1) =
      .ok ⟨["a", "b"], ["a", "b"], some ["c", "d"], some ["c"]⟩
    ∧ SummarizationDataset.save_to_jsonl
        (⟨["a", "b"], ["a", "b"], some ["c", "d"], some ["c"]⟩ :
          SummarizationDataset String String) = .ok [JRecord.srcTgt "a" "c"]
    ∧ SummarizationDataset.len
        (⟨["a", "b"], ["a", "b"], some ["c", "d"], some ["c"]⟩ :
          SummarizationDataset String String) = 2
    ∧ ([JRecord.srcTgt "a" "c"] : List (JRecord String)).length ≠ 2
    ∧ SummarizationDataset.getitem
        (⟨["a", "b"], ["a", "b"], some ["c", "d"], some ["c"]⟩ :
          SummarizationDataset String String) 1 = .error "IndexError" := by
  refine ⟨?_, rfl, rfl, by decide, rfl⟩
  have h := mkSummarizationDatasetU_ok 2 String.length (some ["a", "b"]) none
    (some ["c", "d"]) none none (some [fun s => if s = "d" then "" else s])
    (-1) (-1) ["a", "b"] ["c", "d"] rfl rfl (by decide)
    (Or.inl ⟨rfl, by decide⟩) (fun _ => rfl)
  rw [h]
  rfl

/-- C9: in an untokenized construction the raw source sequence is never
filtered — it stays the combined input lines — so `len(self._source)` is at
most `len(self._source_txt)`, with equality exactly when no processed source
result is empty; and when some processed result at an index `j <= i` is
empty, `get(i)` pairs the processed value at filtered position `i` with the
raw line at position `i`, while that processed value originates from a
strictly later original line `k > i`. -/
theorem untokenized_raw_source_never_filtered
    (cpu_count : Nat) (len_ : α → Nat)
    (sfl src tfl tgt : Option (List α)) (spp tpp : Option (List (α → α)))
    (top_n n_processes : Int) (stxt ttxt : List α)
    (hstxt : combined_txt sfl src top_n = some stxt)
    (httxt : combined_txt tfl tgt top_n = some ttxt)
    (hs : stxt ≠ [])
    (hnp : n_processes = -1 ∧ 1 ≤ cpu_count ∨ 1 ≤ n_processes)
    (hlen : ttxt ≠ [] → stxt.length = ttxt.length)
    (d : SummarizationDataset α α)
    (hok : mkSummarizationDatasetU cpu_count len_ sfl src tfl tgt spp tpp
        top_n n_processes = .ok d)
    (i j : Nat) (hj : j < stxt.length) (hji : j ≤ i)
    (hjempty : len_ (_preprocess spp (stxt.get ⟨j, hj⟩)) = 0)
    (hi : i < d.source.length) (hilt : i < stxt.length) :
    d.source_txt = stxt
    ∧ d.len ≤ d.source_txt.length
    ∧ (d.len = d.source_txt.length ↔ ∀ x ∈ stxt.map (_preprocess spp), 0 < len_ x)
    ∧ (d.target_txt = none →
        d.getitem i = .ok ⟨d.source.get ⟨i, hi⟩, stxt.get ⟨i, hilt⟩, none, none⟩)
    ∧ ∃ k, ∃ hk : k < stxt.length, i < k ∧
        d.source.get ⟨i, hi⟩ = _preprocess spp (stxt.get ⟨k, hk⟩) := by
  have hchar := mkSummarizationDatasetU_ok cpu_count len_ sfl src tfl tgt spp tpp
    top_n n_processes stxt ttxt hstxt httxt hs hnp hlen
  rw [hok] at hchar
  injection hchar with hd
  subst hd
  dsimp only [SummarizationDataset.len] at *
  refine ⟨rfl, ?_, ?_, ?_, ?_⟩
  · simpa using List.length_filter_le
      (fun x => decide (0 < len_ x)) (stxt.map (_preprocess spp))
  · constructor
    · intro h
      have h' : ((stxt.map (_preprocess spp)).filter
          (fun x => decide (0 < len_ x))).length = (stxt.map (_preprocess spp)).length := by
        simpa using h
      intro x hx
      simpa using (List.filter_length_eq_length).mp h' x hx
    · intro h
      have : (stxt.map (_preprocess spp)).filter (fun x => decide (0 < len_ x)) =
          stxt.map (_preprocess spp) :=
        List.filter_eq_self.mpr (fun a ha => by simpa using h a ha)
      simp [this]
  · intro h
    unfold SummarizationDataset.getitem
    dsimp only at h ⊢
    rw [h]
    dsimp only
    rw [List.get?_eq_get hi, List.get?_eq_get hilt]
  · have hjm : j < (stxt.map (_preprocess spp)).length := by simpa using hj
    have hnp' : ¬ (fun x => decide (0 < len_ x))
        ((stxt.map (_preprocess spp)).get ⟨j, hjm⟩) := by
      rw [List.get_eq_getElem, List.getElem_map]
      simp only [List.get_eq_getElem] at hjempty
      simp [hjempty]
    obtain ⟨k, hk, hik, hkeq⟩ := filter_get_of_dropped_before hi j hjm hji hnp'
    have hk' : k < stxt.length := by simpa using hk
    refine ⟨k, hk', hik, ?_⟩
    rw [hkeq, List.get_eq_getElem, List.getElem_map]
    simp

theorem untokenized_raw_source_never_filtered_witness :
    (⟨["", "b"], ["b"], none, none⟩ :
        SummarizationDataset String String).source_txt = ["", "b"]
    ∧ (⟨["", "b"], ["b"], none, none⟩ : SummarizationDataset String String).len ≤
        (⟨["", "b"], ["b"], none, none⟩ :
          SummarizationDataset String String).source_txt.length
    ∧ ((⟨["", "b"], ["b"], none, none⟩ : SummarizationDataset String String).len =
        (⟨["", "b"], ["b"], none, none⟩ :
          SummarizationDataset String String).source_txt.length ↔
        ∀ x ∈ (["", "b"] : List String).map (_preprocess none), 0 < String.length x)
    ∧ ((⟨["", "b"], ["b"], none, none⟩ :
        SummarizationDataset String String).target_txt = none →
        (⟨["", "b"], ["b"], none, none⟩ :
          SummarizationDataset String String).getitem 0 =
          .ok ⟨(["b"] : List String).get ⟨0, by decide⟩,
            (["", "b"] : List String).get ⟨0, by decide⟩, none, none⟩)
    ∧ ∃ k, ∃ hk : k < (["", "b"] : List String).length, 0 < k ∧
        (["b"] : List String).get ⟨0, by decide⟩ =
          _preprocess none ((["", "b"] : List String).get ⟨k, hk⟩) :=
  untokenized_raw_source_never_filtered 2 String.length
    (some ["", "b"]) none none none none none (-1) (-1)
    ["", "b"] [] rfl rfl (by decide) (Or.inl ⟨rfl, by decide⟩)
    (fun h => absurd rfl h) ⟨["", "b"], ["b"], none, none⟩ rfl
    0 0 (by decide) (by decide) (by decide) (by decide) (by decide)

/-- C10: a materialized dataset constructed without any target corpus has no
`self._target` attribute, so `get_target()` raises `AttributeError`, while
`get(i)`, `len()` and `save_to_jsonl()` all succeed because they branch on
the raw-target field being `None` — shown for the untokenized and the
tokenized constructor. -/
theorem no_target_get_target_raises
    (cpu_count : Nat) (len_ : α → Nat) (sfl src : Option (List α))
    (spp tpp : Option (List (α → α))) (top_n n_processes : Int) (stxt : List α)
    (hstxt : combined_txt sfl src top_n = some stxt) (hs : stxt ≠ [])
    (hnp : n_processes = -1 ∧ 1 ≤ cpu_count ∨ 1 ≤ n_processes)
    (d : SummarizationDataset α α)
    (hok : mkSummarizationDatasetU cpu_count len_ sfl src none none spp tpp
        top_n n_processes = .ok d)
    (i : Nat) (hi : i < d.source.length) (his : i < d.source_txt.length)
    (sfl2 src2 : Option (List (List σ)))
    (spp2 tpp2 : Option (List (List σ → List σ))) (wt : σ → List τ)
    (stxt2 : List (List σ))
    (hstxt2 : combined_txt sfl2 src2 top_n = some stxt2) (hs2 : stxt2 ≠ [])
    (dt : SummarizationDataset (List σ) (List (List τ)))
    (hok2 : mkSummarizationDatasetT cpu_count sfl2 src2 none none spp2 tpp2 wt
        top_n n_processes = .ok dt) :
    d.target = none
    ∧ d.get_target = .error "AttributeError"
    ∧ d.len = ((stxt.map (_preprocess spp)).filter (fun x => 0 < len_ x)).length
    ∧ d.getitem i = .ok ⟨d.source.get ⟨i, hi⟩, d.source_txt.get ⟨i, his⟩, none, none⟩
    ∧ d.save_to_jsonl = .ok (d.source.map JRecord.srcOnly)
    ∧ dt.target = none
    ∧ dt.get_target = .error "AttributeError"
    ∧ dt.save_to_jsonl = .ok (dt.source.map JRecord.srcOnly) := by
  have hchar := mkSummarizationDatasetU_ok cpu_count len_ sfl src none none spp tpp
    top_n n_processes stxt [] hstxt rfl hs hnp (fun h => absurd rfl h)
  rw [hok] at hchar
  injection hchar with hd
  have hchar2 := mkSummarizationDatasetT_ok cpu_count sfl2 src2 none none spp2 tpp2
    wt top_n n_processes stxt2 [] hstxt2 rfl hs2 hnp (fun h => absurd rfl h)
  rw [hok2] at hchar2
  injection hchar2 with hd2
  subst hd
  subst hd2
  refine ⟨rfl, rfl, rfl, ?_, rfl, rfl, rfl, rfl⟩
  unfold SummarizationDataset.getitem
  dsimp only at hi his ⊢
  rw [if_pos (show List.length ([] : List α) = 0 from rfl)]
  dsimp only
  rw [List.get?_eq_get hi, List.get?_eq_get his]

theorem no_target_get_target_raises_witness :
    (⟨["a"], ["a"], none, none⟩ : SummarizationDataset String String).target = none
    ∧ (⟨["a"], ["a"], none, none⟩ :
        SummarizationDataset String String).get_target = .error "AttributeError"
    ∧ (⟨["a"], ["a"], none, none⟩ : SummarizationDataset String String).len =
        (((["a"] : List String).map (_preprocess none)).filter
          (fun x => 0 < String.length x)).length
    ∧ (⟨["a"], ["a"], none, none⟩ : SummarizationDataset String String).getitem 0 =
        .ok ⟨(["a"] : List String).get ⟨0, by decide⟩,
          (["a"] : List String).get ⟨0, by decide⟩, none, none⟩
    ∧ (⟨["a"], ["a"], none, none⟩ :
        SummarizationDataset String String).save_to_jsonl =
        .ok ((["a"] : List String).map JRecord.srcOnly)
    ∧ (⟨[["s"]], [[["s"]]], none, none⟩ :
        SummarizationDataset (List String) (List (List String))).target = none
    ∧ (⟨[["s"]], [[["s"]]], none, none⟩ :
        SummarizationDataset (List String) (List (List String))).get_target =
        .error "AttributeError"
    ∧ (⟨[["s"]], [[["s"]]], none, none⟩ :
        SummarizationDataset (List String) (List (List String))).save_to_jsonl =
        .ok (([[["s"]]] : List (List (List String))).map JRecord.srcOnly) :=
  no_target_get_target_raises 2 String.length (some ["a"]) none none none
    (-1) (-1) ["a"] rfl (by decide) (Or.inl ⟨rfl, by decide⟩)
    ⟨["a"], ["a"], none, none⟩ rfl 0 (by decide) (by decide)
    (some [["s"]]) none none none (fun (s : String) => [s]) [["s"]] rfl
    (by decide) ⟨[["s"]], [[["s"]]], none, none⟩ rfl

end TextSumm
